import Mathlib

/-!
Verification of the redback / grb_bilby core against its specification.

The development shallowly embeds the Python sources:

* `src/redback/ejecta_relations.py` — closed-form kilonova ejecta relations.
  Python floats are idealised as real numbers; `numpy.log` is `Real.log`,
  `numpy.sqrt` is `Real.sqrt`, `numpy.maximum` is `max`, `numpy.sign` is
  `npSign`, and the float power operator `**` with a non-integral exponent is
  real exponentiation `Real.rpow` (written `^` with a real exponent), while
  `** 2` with a Python int literal is `^ (2 : ℕ)`.
* `src/redback/sampler.py` — the fit orchestrator.  Side effects (directory
  creation, prior-file reads, sampler invocation) are reified as an explicit
  trace of `Effect` values; numeric metadata uses `ℚ`, which is exact for the
  comparisons and affine arithmetic the code performs on it.
* `src/grb_bilby/analysis/Analysis.py` — result reading and Bayes factors,
  with the persisted result store passed in as an explicit environment.

Python attribute/call semantics matter for the ejecta classes: their compute
methods are `@property`-decorated yet invoked with `()` inside `__init__`, so
those call sites are embedded through a tiny model of attribute access
(`PyAttr`, `pyCall`) rather than as plain function application.
-/

/-! ## Embedding of `redback/ejecta_relations.py`: module-level helpers -/

/-- `calc_compactness_from_lambda(lambda_1)`:
`c1 = 0.371 - 0.0391 * np.log(lambda_1) + 0.001056 * np.log(lambda_1) ** 2`. -/
noncomputable def calc_compactness_from_lambda (lambda_1 : ℝ) : ℝ :=
  0.371 - 0.0391 * Real.log lambda_1 + 0.001056 * Real.log lambda_1 ^ (2 : ℕ)

/-- `calc_baryonic_mass(mass, compactness)`:
`mb = mass*(1 + 0.8857853174243745*compactness**1.2082383572002926)`. -/
noncomputable def calc_baryonic_mass (mass compactness : ℝ) : ℝ :=
  mass * (1 + 0.8857853174243745 * compactness ^ (1.2082383572002926 : ℝ))

/-- `calc_vrho(mass_1, mass_2, lambda_1, lambda_2)` with
`a=-0.219479`, `b=0.444836`, `c=-2.67385`:
`((mass_1/mass_2)*(1.0+c*compactness_1)+(mass_2/mass_1)*(1.0+c*compactness_2))*a+b`. -/
noncomputable def calc_vrho (mass_1 mass_2 lambda_1 lambda_2 : ℝ) : ℝ :=
  let a : ℝ := -0.219479
  let b : ℝ := 0.444836
  let c : ℝ := -2.67385
  let compactness_1 := calc_compactness_from_lambda lambda_1
  let compactness_2 := calc_compactness_from_lambda lambda_2
  ((mass_1 / mass_2) * (1.0 + c * compactness_1) +
    (mass_2 / mass_1) * (1.0 + c * compactness_2)) * a + b

/-- `calc_vz(mass_1, mass_2, lambda_1, lambda_2)` with
`a=-0.315585`, `b=0.63808`, `c=-1.00757`. -/
noncomputable def calc_vz (mass_1 mass_2 lambda_1 lambda_2 : ℝ) : ℝ :=
  let a : ℝ := -0.315585
  let b : ℝ := 0.63808
  let c : ℝ := -1.00757
  let compactness_1 := calc_compactness_from_lambda lambda_1
  let compactness_2 := calc_compactness_from_lambda lambda_2
  ((mass_1 / mass_2) * (1.0 + c * compactness_1) +
    (mass_2 / mass_1) * (1.0 + c * compactness_2)) * a + b

/-- `numpy.sign` on reals: `-1` for negatives, `0` at `0`, `1` for positives. -/
noncomputable def npSign (x : ℝ) : ℝ :=
  if x < 0 then -1 else if x = 0 then 0 else 1

/-! ## Spec-side closed forms (for the refinement claim about the helpers)

These four definitions are transcribed from the WORDS of the specification
(section 4.1, "Shared helper transforms"), to be compared with the embeddings
of the source functions above. -/

/-- Spec form: `compactness_from_tidal_deformability(λ) =
0.371 − 0.0391·ln λ + 0.001056·(ln λ)²`. -/
noncomputable def spec_compactness_from_tidal_deformability (lam : ℝ) : ℝ :=
  0.371 - 0.0391 * Real.log lam + 0.001056 * (Real.log lam) ^ (2 : ℕ)

/-- Spec form: `baryonic_mass(mass, compactness) =
mass·(1 + 0.8857853174243745·compactness^1.2082383572002926)`. -/
noncomputable def spec_baryonic_mass (mass compactness : ℝ) : ℝ :=
  mass * (1 + 0.8857853174243745 * compactness ^ (1.2082383572002926 : ℝ))

/-- Spec form of `v_inplane`: `a·[(m1/m2)(1+c·C1) + (m2/m1)(1+c·C2)] + b`
with `a = -0.219479`, `b = 0.444836`, `c = -2.67385`, where `C1`, `C2` are the
compactnesses derived from the tidal deformabilities. -/
noncomputable def spec_v_inplane (m1 m2 lam1 lam2 : ℝ) : ℝ :=
  let a : ℝ := -0.219479
  let b : ℝ := 0.444836
  let c : ℝ := -2.67385
  let C1 := spec_compactness_from_tidal_deformability lam1
  let C2 := spec_compactness_from_tidal_deformability lam2
  a * ((m1 / m2) * (1 + c * C1) + (m2 / m1) * (1 + c * C2)) + b

/-- Spec form of `v_outplane`: same shape with
`a = -0.315585`, `b = 0.63808`, `c = -1.00757`. -/
noncomputable def spec_v_outplane (m1 m2 lam1 lam2 : ℝ) : ℝ :=
  let a : ℝ := -0.315585
  let b : ℝ := 0.63808
  let c : ℝ := -1.00757
  let C1 := spec_compactness_from_tidal_deformability lam1
  let C2 := spec_compactness_from_tidal_deformability lam2
  a * ((m1 / m2) * (1 + c * C1) + (m2 / m1) * (1 + c * C2)) + b

/-! ## Method bodies of the three ejecta classes

Each `calculate_*` body is embedded as a pure function of the constructor
arguments, with the attributes the body reads (`self.c1`, `self.vrho`, …)
inlined as the values `__init__` assigns to them. -/

/-- Body of `OneComponentBNSNoProjection.calculate_ejecta_velocity`:
`a=-0.3090, b=0.657, c=-1.879`;
`vej = a*(m1/m2)*(1+c*c1) + a*(m2/m1)*(1+c*c2) + b`. -/
noncomputable def OneComponentBNSNoProjection.calculate_ejecta_velocity
    (mass_1 mass_2 lambda_1 lambda_2 : ℝ) : ℝ :=
  let c1 := calc_compactness_from_lambda lambda_1
  let c2 := calc_compactness_from_lambda lambda_2
  let a : ℝ := -0.3090
  let b : ℝ := 0.657
  let c : ℝ := -1.879
  a * (mass_1 / mass_2) * (1 + c * c1) + a * (mass_2 / mass_1) * (1 + c * c2) + b

/-- Body of `OneComponentBNSNoProjection.calculate_ejecta_mass`:
`a=-0.0719, b=0.2116, d=-2.42, n=-2.905`; `mej = 10 ** log10_mej`. -/
noncomputable def OneComponentBNSNoProjection.calculate_ejecta_mass
    (mass_1 mass_2 lambda_1 lambda_2 : ℝ) : ℝ :=
  let c1 := calc_compactness_from_lambda lambda_1
  let c2 := calc_compactness_from_lambda lambda_2
  let a : ℝ := -0.0719
  let b : ℝ := 0.2116
  let d : ℝ := -2.42
  let n : ℝ := -2.905
  let log10_mej :=
    a * (mass_1 * (1 - 2 * c1) / c1 + mass_2 * (1 - 2 * c2) / c2) +
      b * (mass_1 * (mass_2 / mass_1) ^ n + mass_2 * (mass_1 / mass_2) ^ n) + d
  (10 : ℝ) ^ log10_mej

/-- The `self.vrho` attribute of `OneComponentBNSNoProjection`, assigned in
`__init__` as `calc_vrho(mass_1, mass_2, lambda_1, lambda_2)`. -/
noncomputable def OneComponentBNSNoProjection.vrho
    (mass_1 mass_2 lambda_1 lambda_2 : ℝ) : ℝ :=
  calc_vrho mass_1 mass_2 lambda_1 lambda_2

/-- The `self.vz` attribute of `OneComponentBNSNoProjection`, assigned in
`__init__` as `calc_vz(mass_1, mass_2, lambda_1, lambda_2)`. -/
noncomputable def OneComponentBNSNoProjection.vz
    (mass_1 mass_2 lambda_1 lambda_2 : ℝ) : ℝ :=
  calc_vz mass_1 mass_2 lambda_1 lambda_2

/-- Body of `OneComponentBNSNoProjection.calculate_qej`:
`tmp1 = 3*vz + sqrt(9*vz**2 + 4*vrho**2)`;
`qej = (2**(4/3)*vrho**2 + (2*vrho**2*tmp1)**(2/3)) / ((vrho**5.0)*tmp1)**(1/3)`. -/
noncomputable def OneComponentBNSNoProjection.calculate_qej
    (mass_1 mass_2 lambda_1 lambda_2 : ℝ) : ℝ :=
  let vrho := OneComponentBNSNoProjection.vrho mass_1 mass_2 lambda_1 lambda_2
  let vz := OneComponentBNSNoProjection.vz mass_1 mass_2 lambda_1 lambda_2
  let tmp1 := 3 * vz + Real.sqrt (9 * vz ^ (2 : ℕ) + 4 * vrho ^ (2 : ℕ))
  ((2.0 : ℝ) ^ ((4.0 : ℝ) / 3.0) * vrho ^ (2 : ℕ) +
      (2 * vrho ^ (2 : ℕ) * tmp1) ^ ((2.0 : ℝ) / 3.0)) /
    ((vrho ^ (5.0 : ℝ)) * tmp1) ^ ((1.0 : ℝ) / 3.0)

/-- Body of `OneComponentBNSNoProjection.calculate_phej`:
`4.0 * qej * np.pi / 2.0`. -/
noncomputable def OneComponentBNSNoProjection.calculate_phej
    (mass_1 mass_2 lambda_1 lambda_2 : ℝ) : ℝ :=
  4.0 * OneComponentBNSNoProjection.calculate_qej mass_1 mass_2 lambda_1 lambda_2 *
    Real.pi / 2.0

/-- Body of `OneComponentBNSProjection.calculate_ejecta_velocity`:
`vej = (vrho**2.0 + vz**2.0)**0.5`. -/
noncomputable def OneComponentBNSProjection.calculate_ejecta_velocity
    (mass_1 mass_2 lambda_1 lambda_2 : ℝ) : ℝ :=
  let vrho := calc_vrho mass_1 mass_2 lambda_1 lambda_2
  let vz := calc_vz mass_1 mass_2 lambda_1 lambda_2
  (vrho ^ (2.0 : ℝ) + vz ^ (2.0 : ℝ)) ^ (0.5 : ℝ)

/-- Body of `OneComponentBNSProjection.calculate_ejecta_mass`:
`a=-1.35695, b=6.11252, c=-49.43355, d=16.1144, n=-2.5484`;
`mej = np.maximum(tmp1 + tmp2 + tmp3 + d, 0) / 1000.0`. -/
noncomputable def OneComponentBNSProjection.calculate_ejecta_mass
    (mass_1 mass_2 lambda_1 lambda_2 : ℝ) : ℝ :=
  let a : ℝ := -1.35695
  let b : ℝ := 6.11252
  let c : ℝ := -49.43355
  let d : ℝ := 16.1144
  let n : ℝ := -2.5484
  let c1 := calc_compactness_from_lambda lambda_1
  let c2 := calc_compactness_from_lambda lambda_2
  let mb1 := calc_baryonic_mass mass_1 c1
  let mb2 := calc_baryonic_mass mass_2 c2
  let tmp1 :=
    (mb1 * ((mass_2 / mass_1) ^ ((1.0 : ℝ) / 3.0)) * (1.0 - 2.0 * c1) / c1 +
      mb2 * ((mass_1 / mass_2) ^ ((1.0 : ℝ) / 3.0)) * (1.0 - 2.0 * c2) / c2) * a
  let tmp2 := (mb1 * ((mass_2 / mass_1) ^ n) + mb2 * ((mass_1 / mass_2) ^ n)) * b
  let tmp3 := (mb1 * (1.0 - mass_1 / mb1) + mb2 * (1.0 - mass_2 / mb2)) * c
  max (tmp1 + tmp2 + tmp3 + d) 0 / 1000.0

/-- The `self.vrho` attribute of `OneComponentBNSProjection` (same assignment
as in the no-projection class). -/
noncomputable def OneComponentBNSProjection.vrho
    (mass_1 mass_2 lambda_1 lambda_2 : ℝ) : ℝ :=
  calc_vrho mass_1 mass_2 lambda_1 lambda_2

/-- The `self.vz` attribute of `OneComponentBNSProjection`. -/
noncomputable def OneComponentBNSProjection.vz
    (mass_1 mass_2 lambda_1 lambda_2 : ℝ) : ℝ :=
  calc_vz mass_1 mass_2 lambda_1 lambda_2

/-- Body of `OneComponentBNSProjection.calculate_qej` (textually identical to
the no-projection body in the source). -/
noncomputable def OneComponentBNSProjection.calculate_qej
    (mass_1 mass_2 lambda_1 lambda_2 : ℝ) : ℝ :=
  let vrho := OneComponentBNSProjection.vrho mass_1 mass_2 lambda_1 lambda_2
  let vz := OneComponentBNSProjection.vz mass_1 mass_2 lambda_1 lambda_2
  let tmp1 := 3 * vz + Real.sqrt (9 * vz ^ (2 : ℕ) + 4 * vrho ^ (2 : ℕ))
  ((2.0 : ℝ) ^ ((4.0 : ℝ) / 3.0) * vrho ^ (2 : ℕ) +
      (2 * vrho ^ (2 : ℕ) * tmp1) ^ ((2.0 : ℝ) / 3.0)) /
    ((vrho ^ (5.0 : ℝ)) * tmp1) ^ ((1.0 : ℝ) / 3.0)

/-- Body of `OneComponentBNSProjection.calculate_phej`:
`4.0 * qej * np.pi / 2.0`. -/
noncomputable def OneComponentBNSProjection.calculate_phej
    (mass_1 mass_2 lambda_1 lambda_2 : ℝ) : ℝ :=
  4.0 * OneComponentBNSProjection.calculate_qej mass_1 mass_2 lambda_1 lambda_2 *
    Real.pi / 2.0

/-- Body of `OneComponentNSBH.isco_radius` (Bardeen–Press–Teukolsky):
`z1 = 1 + ((1-chi*chi)**(1/3))*((1+chi)**(1/3) + (1-chi)**(1/3))`;
`z2 = (3*chi*chi + z1*z1)**(1/2)`;
`risco = 3 + z2 - np.sign(chi)*((3-z1)*(3+z1+2*z2))**(1/2)`. -/
noncomputable def OneComponentNSBH.isco_radius (chi_eff : ℝ) : ℝ :=
  let chi := chi_eff
  let z1 := 1 + ((1 - chi * chi) ^ ((1 : ℝ) / 3.0)) *
    ((1 + chi) ^ ((1 : ℝ) / 3.0) + (1 - chi) ^ ((1 : ℝ) / 3.0))
  let z2 := (3 * chi * chi + z1 * z1) ^ ((1 : ℝ) / 2.0)
  3 + z2 - npSign chi * ((3 - z1) * (3 + z1 + 2 * z2)) ^ ((1 : ℝ) / 2.0)

/-- Body of `OneComponentNSBH.calculate_ejecta_velocity`:
`vej = 1.5333330951369120e-2*mass_ratio + 0.19066667068621043`, with
`mass_ratio = mass_bh/mass_ns`. -/
noncomputable def OneComponentNSBH.calculate_ejecta_velocity
    (mass_bh mass_ns : ℝ) : ℝ :=
  1.5333330951369120e-2 * (mass_bh / mass_ns) + 0.19066667068621043

/-- Body of `OneComponentNSBH.calculate_ejecta_mass`:
`a1=-2.269e-3, a2=4.464e-2, a3=2.431, a4=-0.4159, n1=1.352, n2=0.2497`;
`mej = baryonic_mass * np.maximum(tmp1 + tmp2 + tmp3, 0)`, where
`self.risco` is the value of the `isco_radius` property. -/
noncomputable def OneComponentNSBH.calculate_ejecta_mass
    (mass_bh mass_ns chi_eff lambda_ns : ℝ) : ℝ :=
  let a1 : ℝ := -2.269e-3
  let a2 : ℝ := 4.464e-2
  let a3 : ℝ := 2.431
  let a4 : ℝ := -0.4159
  let n1 : ℝ := 1.352
  let n2 : ℝ := 0.2497
  let mass_ratio := mass_bh / mass_ns
  let risco := OneComponentNSBH.isco_radius chi_eff
  let compactness := calc_compactness_from_lambda lambda_ns
  let baryonic_mass := calc_baryonic_mass mass_ns compactness
  let tmp1 := risco * (mass_ratio ^ n1) * a1
  let tmp2 := (mass_ratio ^ n2) * (1 - 2 * compactness) * a2 / compactness
  let tmp3 := (1 - mass_ns / baryonic_mass) * a3 + a4
  baryonic_mass * max (tmp1 + tmp2 + tmp3) 0

/-! ## Python attribute-access/call semantics for the `__init__` bodies

In all three classes the compute methods are decorated `@property`, yet
`__init__` invokes them with `()` — e.g. `self.ejecta_mass =
self.calculate_ejecta_mass()`.  Under Python semantics the attribute access
already runs the property body and yields its float result, and calling a
float raises `TypeError`.  `PyAttr` distinguishes the two shapes an attribute
access can produce, and `pyCall` is the Python call operation on it. -/

/-- Result of a Python attribute access: a `@property` access yields the
float value returned by the property body; a plain (undecorated) method
access would yield a callable bound method. -/
inductive PyAttr where
  | value (v : ℝ)
  | boundMethod (f : Unit → ℝ)

/-- Python exceptions relevant to the embedded code paths. -/
inductive PyError where
  | typeError
  deriving DecidableEq

/-- Calling the result of an attribute access: floats are not callable
(`TypeError`); a bound method runs its body. -/
def pyCall : PyAttr → Except PyError ℝ
  | .value _ => .error .typeError
  | .boundMethod f => .ok (f ())

/-- The attribute record a successful BNS `__init__` would produce. -/
structure BNSEjectaOutputs where
  ejecta_mass : ℝ
  ejecta_velocity : ℝ
  qej : ℝ
  phej : ℝ

/-- `OneComponentBNSNoProjection.__init__(mass_1, mass_2, lambda_1, lambda_2)`:
assigns `c1`, `c2`, `vrho`, `vz` via module-level function calls, then
executes `self.ejecta_mass = self.calculate_ejecta_mass()` — an attribute
access on a `@property` (yielding a float) followed by a call. -/
noncomputable def OneComponentBNSNoProjection.init
    (mass_1 mass_2 lambda_1 lambda_2 : ℝ) : Except PyError BNSEjectaOutputs := do
  let ejecta_mass ← pyCall (PyAttr.value
    (OneComponentBNSNoProjection.calculate_ejecta_mass mass_1 mass_2 lambda_1 lambda_2))
  let ejecta_velocity ← pyCall (PyAttr.value
    (OneComponentBNSNoProjection.calculate_ejecta_velocity mass_1 mass_2 lambda_1 lambda_2))
  let qej ← pyCall (PyAttr.value
    (OneComponentBNSNoProjection.calculate_qej mass_1 mass_2 lambda_1 lambda_2))
  let phej ← pyCall (PyAttr.value
    (OneComponentBNSNoProjection.calculate_phej mass_1 mass_2 lambda_1 lambda_2))
  pure ⟨ejecta_mass, ejecta_velocity, qej, phej⟩

/-- `OneComponentBNSProjection.__init__`: same call pattern on the
projection-class properties. -/
noncomputable def OneComponentBNSProjection.init
    (mass_1 mass_2 lambda_1 lambda_2 : ℝ) : Except PyError BNSEjectaOutputs := do
  let ejecta_mass ← pyCall (PyAttr.value
    (OneComponentBNSProjection.calculate_ejecta_mass mass_1 mass_2 lambda_1 lambda_2))
  let ejecta_velocity ← pyCall (PyAttr.value
    (OneComponentBNSProjection.calculate_ejecta_velocity mass_1 mass_2 lambda_1 lambda_2))
  let qej ← pyCall (PyAttr.value
    (OneComponentBNSProjection.calculate_qej mass_1 mass_2 lambda_1 lambda_2))
  let phej ← pyCall (PyAttr.value
    (OneComponentBNSProjection.calculate_phej mass_1 mass_2 lambda_1 lambda_2))
  pure ⟨ejecta_mass, ejecta_velocity, qej, phej⟩

/-- The attribute record a successful NSBH `__init__` would produce. -/
structure NSBHEjectaOutputs where
  risco : ℝ
  ejecta_velocity : ℝ
  ejecta_mass : ℝ

/-- `OneComponentNSBH.__init__(mass_bh, mass_ns, chi_eff, lambda_ns)`:
executes `self.risco = self.isco_radius()` and the two `calculate_*()` calls,
each an attribute access on a `@property` followed by a call. -/
noncomputable def OneComponentNSBH.init
    (mass_bh mass_ns chi_eff lambda_ns : ℝ) : Except PyError NSBHEjectaOutputs := do
  let risco ← pyCall (PyAttr.value (OneComponentNSBH.isco_radius chi_eff))
  let ejecta_velocity ← pyCall (PyAttr.value
    (OneComponentNSBH.calculate_ejecta_velocity mass_bh mass_ns))
  let ejecta_mass ← pyCall (PyAttr.value
    (OneComponentNSBH.calculate_ejecta_mass mass_bh mass_ns chi_eff lambda_ns))
  pure ⟨risco, ejecta_velocity, ejecta_mass⟩

/-! ## Embedding of `redback/sampler.py`

Numeric metadata (`photon_index`, prior parameters) is embedded over `ℚ`,
which is exact for the comparison and affine arithmetic the code performs.
Side effects are reified into a trace of `Effect` values. -/

/-- A bilby prior object, as constructed in `_fit_grb`.  The positional
`name` and the `latex_label` arguments of the Python constructors are
presentational metadata and are not part of the numeric content. -/
inductive Prior where
  | uniform (minimum maximum : ℚ)
  | gaussian (mu sigma : ℚ)
  | fromFile (key : String)
  deriving DecidableEq

/-- A bilby `PriorDict`: a mutable mapping from parameter name to prior. -/
def PriorDict : Type := String → Option Prior

/-- Dictionary assignment `prior[key] = v`. -/
def PriorDict.insert (p : PriorDict) (key : String) (v : Prior) : PriorDict :=
  fun s => if s = key then some v else p s

/-- Observable side effects of the embedded code paths. -/
inductive Effect where
  | readPriorFile (path : String)
  | mkdir (path : String)
  | runSampler (outdir label : String)
  | makedirs (path : String)
  | readResultFile (filename : String)
  | loadGRBData (name : String)
  deriving DecidableEq

/-- Whether an effect mutates the filesystem (directory creation, or the
sampler run, which persists its result under the output directory). -/
def Effect.modifiesFilesystem : Effect → Bool
  | .mkdir _ => true
  | .makedirs _ => true
  | .runSampler _ _ => true
  | _ => false

/-- Whether an effect is an invocation of the sampling/fitting machinery. -/
def Effect.triggersFit : Effect → Bool
  | .runSampler _ _ => true
  | _ => false

/-- A light-curve model function: `name` is its `__name__`, and
`objectRepr` is the string Python produces when the function OBJECT itself is
interpolated into an f-string, of the shape
`<function NAME at 0xADDRESS>`.  The distinction matters in `fit_model`,
which builds the prior-file path from the resolved function object, not from
the model name. -/
structure ModelFn where
  name : String
  objectRepr : String
  deriving DecidableEq

/-- The `model` argument of `fit_model`: either a name to be looked up in
`all_models_dict`, or a callable passed directly. -/
inductive ModelArg where
  | byName (s : String)
  | byFn (f : ModelFn)
  deriving DecidableEq

/-- The class of the `transient` argument, as tested by the `isinstance`
chain in `fit_model`; `other` carries `transient.__class__.__name__` for any
class outside the five recognized ones. -/
inductive TransientClass where
  | afterglow
  | kilonova
  | promptTimeSeries
  | supernova
  | tde
  | other (className : String)
  deriving DecidableEq

/-- Errors raised by `fit_model` before any sub-fit runs:
`all_models_dict[model]` raises `KeyError` on an unknown name; with
`prior=None`, `bilby.prior.PriorDict(filename=...)` raises
`FileNotFoundError` when the requested prior file does not exist; and the
final `else` branch raises `ValueError(f"Source type {...} not known")` —
the error the specification calls `UnsupportedTransientType`. -/
inductive FitError where
  | keyError (key : String)
  | unsupportedTransientType (msg : String)
  | fileNotFoundError (path : String)
  deriving DecidableEq

/-- `model = all_models_dict[model]` when `model` is a string; a callable is
passed through unchanged. -/
def resolveModel (all_models_dict : String → Option ModelFn) :
    ModelArg → Except FitError ModelFn
  | .byName s =>
    match all_models_dict s with
    | some f => .ok f
    | none => .error (.keyError s)
  | .byFn f => .ok f

/-- The photon-index prior replacement at the top of `_fit_grb`:
`if use_photon_index_prior:` then, when `transient.photon_index < 0.`,
`prior["alpha_1"] = bilby.prior.Uniform(-10, -0.5, ...)`, else
`prior["alpha_1"] = bilby.prior.Gaussian(mu=-(transient.photon_index + 1),
sigma=0.1, ...)`. -/
def grbPhotonIndexPriorUpdate (use_photon_index_prior : Bool)
    (photon_index : ℚ) (prior : PriorDict) : PriorDict :=
  if use_photon_index_prior then
    if photon_index < 0 then
      prior.insert "alpha_1" (Prior.uniform (-10) (-0.5))
    else
      prior.insert "alpha_1" (Prior.gaussian (-(photon_index + 1)) 0.1)
  else prior

/-- `_fit_grb`: prior replacement, `outdir = f"{outdir}/GRB{name}/{model.__name__}"`
with `Path(outdir).mkdir(parents=True, exist_ok=True)`, label
`data_mode` (+ `"_photon_index"` when the photon-index prior is used), then
`bilby.run_sampler(...)`.  Returns the effect trace and the prior dictionary
actually passed to the sampler. -/
def _fit_grb (name : String) (photon_index : ℚ) (model : ModelFn)
    (outdir : String) (prior : PriorDict) (use_photon_index_prior : Bool)
    (data_mode : String) : List Effect × PriorDict :=
  let prior := grbPhotonIndexPriorUpdate use_photon_index_prior photon_index prior
  let outdir := outdir ++ "/GRB" ++ name ++ "/" ++ model.name
  let label := data_mode ++ (if use_photon_index_prior then "_photon_index" else "")
  ([Effect.mkdir outdir, Effect.runSampler outdir label], prior)

/-- `_fit_kilonova`: same pipeline without the photon-index block and with
`outdir = f"{outdir}/{name}/{model.__name__}"`. -/
def _fit_kilonova (name : String) (model : ModelFn) (outdir : String)
    (prior : PriorDict) (use_photon_index_prior : Bool)
    (data_mode : String) : List Effect × PriorDict :=
  let outdir := outdir ++ "/" ++ name ++ "/" ++ model.name
  let label := data_mode ++ (if use_photon_index_prior then "_photon_index" else "")
  ([Effect.mkdir outdir, Effect.runSampler outdir label], prior)

/-- `_fit_prompt`: Poisson-likelihood pipeline,
`outdir = f"{outdir}/GRB{name}/{model.__name__}"`. -/
def _fit_prompt (name : String) (model : ModelFn) (outdir : String)
    (prior : PriorDict) (use_photon_index_prior : Bool)
    (data_mode : String) : List Effect × PriorDict :=
  let outdir := outdir ++ "/GRB" ++ name ++ "/" ++ model.name
  let label := data_mode ++ (if use_photon_index_prior then "_photon_index" else "")
  ([Effect.mkdir outdir, Effect.runSampler outdir label], prior)

/-- `fit_model(name, transient, model, outdir, ..., prior, ...)`:
resolves a string model through `all_models_dict` (a miss raises `KeyError`);
when `prior is None` it evaluates
`bilby.prior.PriorDict(filename=f"{dirname}/Priors/{model}.prior")` — at
this point `model` has already been replaced by the looked-up FUNCTION
OBJECT, so the interpolated path contains the function repr
`<function NAME at 0x...>`, and a missing file raises `FileNotFoundError`
BEFORE the transient dispatch; then it dispatches on the class of
`transient`, where the `else` branch raises
`ValueError(f"Source type {transient.__class__.__name__} not known")`.
`_fit_supernova` and `_fit_tde` are `pass` stubs in the source.
`priorFiles` is the filesystem view of prior files (`none` = absent file)
and `dirname` is the module directory `os.path.dirname(__file__)`. -/
def fit_model_dispatch (name : String) (transient : TransientClass)
    (photon_index : ℚ) (f : ModelFn) (outdir : String) (p : PriorDict)
    (use_photon_index_prior : Bool) (data_mode : String)
    (priorEffects : List Effect) : List Effect × Except FitError Unit :=
  match transient with
  | .afterglow =>
    (priorEffects ++
      (_fit_grb name photon_index f outdir p use_photon_index_prior data_mode).1, .ok ())
  | .kilonova =>
    (priorEffects ++
      (_fit_kilonova name f outdir p use_photon_index_prior data_mode).1, .ok ())
  | .promptTimeSeries =>
    (priorEffects ++
      (_fit_prompt name f outdir p use_photon_index_prior data_mode).1, .ok ())
  | .supernova => (priorEffects, .ok ())
  | .tde => (priorEffects, .ok ())
  | .other c =>
    (priorEffects, .error (.unsupportedTransientType ("Source type " ++ c ++ " not known")))

/-- `fit_model` proper: model resolution, the prior-file load with its
repr-interpolated filename, then the dispatch above. -/
def fit_model (all_models_dict : String → Option ModelFn)
    (priorFiles : String → Option PriorDict) (dirname name : String)
    (transient : TransientClass) (photon_index : ℚ) (model : ModelArg)
    (outdir : String) (prior : Option PriorDict)
    (use_photon_index_prior : Bool) (data_mode : String) :
    List Effect × Except FitError Unit :=
  match resolveModel all_models_dict model with
  | .error e => ([], .error e)
  | .ok f =>
    match prior with
    | none =>
      let path := dirname ++ "/Priors/" ++ f.objectRepr ++ ".prior"
      match priorFiles path with
      | none => ([Effect.readPriorFile path], .error (.fileNotFoundError path))
      | some p => fit_model_dispatch name transient photon_index f outdir p
          use_photon_index_prior data_mode [Effect.readPriorFile path]
    | some p => fit_model_dispatch name transient photon_index f outdir p
        use_photon_index_prior data_mode []

/-! ## Embedding of `grb_bilby/analysis/Analysis.py` -/

/-- A persisted bilby inference result, as read back by
`bilby.result.read_in_result`. -/
structure BilbyResult where
  log_evidence : ℚ
  deriving DecidableEq

/-- The filesystem environment of the analysis module: persisted result
files keyed by full filename, and directory existence for the
`os.path.exists` check in `read_result`. -/
structure AnalysisEnv where
  resultFiles : String → Option BilbyResult
  dirExists : String → Bool

/-- `bilby.result.read_in_result` on a missing file raises an error naming
the requested filename — the error the specification calls
`ResultNotFound`. -/
inductive AnalysisError where
  | resultNotFound (filename : String)
  deriving DecidableEq

/-- The directory `read_result` looks in:
`result_path = path + "/GRB" + GRB + "/" + model + "/"`. -/
def result_path (model GRB path : String) : String :=
  path ++ "/GRB" ++ GRB ++ "/" ++ model ++ "/"

/-- The filename `read_result` reads:
`result_path + "photon_index_result.json"` under the photon-index variant,
else `result_path + "result_result.json"`. -/
def result_filename (model GRB path : String) (use_photon_index_prior : Bool) : String :=
  result_path model GRB path ++
    (if use_photon_index_prior then "photon_index_result.json" else "result_result.json")

/-- `read_result(model, GRB, path, truncate, use_photon_index_prior)`:
creates `result_path` if absent, reads the persisted result file (raising if
it is missing), then loads the transient data via `load_data`. -/
def read_result (env : AnalysisEnv) (model GRB path : String)
    (use_photon_index_prior : Bool) :
    List Effect × Except AnalysisError BilbyResult :=
  let rp := result_path model GRB path
  let mkdirEffects : List Effect :=
    if env.dirExists rp then [] else [Effect.makedirs rp]
  let filename := result_filename model GRB path use_photon_index_prior
  match env.resultFiles filename with
  | none => (mkdirEffects ++ [Effect.readResultFile filename],
      .error (.resultNotFound filename))
  | some r => (mkdirEffects ++ [Effect.readResultFile filename, Effect.loadGRBData GRB],
      .ok r)

/-- `calculate_BF(model1, model2, GRB, path, use_photon_index_prior)`:
reads both persisted results (the first failure propagates) and returns
`model1.log_evidence - model2.log_evidence`. -/
def calculate_BF (env : AnalysisEnv) (model1 model2 GRB path : String)
    (use_photon_index_prior : Bool) : List Effect × Except AnalysisError ℚ :=
  let r1 := read_result env model1 GRB path use_photon_index_prior
  match r1.2 with
  | .error e => (r1.1, .error e)
  | .ok m1 =>
    let r2 := read_result env model2 GRB path use_photon_index_prior
    match r2.2 with
    | .error e => (r1.1 ++ r2.1, .error e)
    | .ok m2 => (r1.1 ++ r2.1, .ok (m1.log_evidence - m2.log_evidence))

/-- Concrete result store used by the `calculate_BF` witnesses: results for
models `"magnetar_only"` (log-evidence `3`) and `"full_magnetar"`
(log-evidence `1`) of GRB `"140903A"` exist; nothing else does. -/
def sampleAnalysisEnv : AnalysisEnv where
  resultFiles := fun s =>
    if s = result_filename "magnetar_only" "140903A" "." false then some ⟨3⟩
    else if s = result_filename "full_magnetar" "140903A" "." false then some ⟨1⟩
    else none
  dirExists := fun _ => true

/-! ## Helper lemmas -/

/-- The compactness fit `0.371 - 0.0391 L + 0.001056 L²` (with `L = ln λ`)
has negative discriminant, so it is strictly positive for every real `L`. -/
theorem calc_compactness_from_lambda_pos (lam : ℝ) :
    0 < calc_compactness_from_lambda lam := by
  unfold calc_compactness_from_lambda
  nlinarith [sq_nonneg (0.002112 * Real.log lam - 0.0391)]

/-! ## Claim theorems -/

/-- C1 (code_bug evidence): constructing each of the three
`EjectaRelations` variants at physically valid inputs raises `TypeError`
rather than completing — `__init__` calls `self.calculate_ejecta_mass()`
(and the analogous methods), but those methods are `@property`-decorated, so
the attribute access already yields a float and the call is a call on a
float. -/
theorem claim_C1_constructor_raises_typeerror :
    OneComponentBNSNoProjection.init 1.4 1.3 400 450 = .error PyError.typeError
  ∧ OneComponentBNSProjection.init 1.4 1.3 400 450 = .error PyError.typeError
  ∧ OneComponentNSBH.init 5 1.4 0 400 = .error PyError.typeError :=
  ⟨rfl, rfl, rfl⟩

/-- C3: in the GRB fit path with `use_photon_index_prior` set, a negative
photon index installs `Uniform(-10, -0.5)` on `alpha_1`; otherwise a
`Gaussian` with `mu = -(photon_index + 1)` and `sigma = 0.1` is installed
(in particular `mu = -2.5` at photon index `1.5`); every other key of the
prior dictionary passed to the fit is left unchanged. -/
theorem claim_C3_photon_index_prior (name : String) (photon_index : ℚ)
    (model : ModelFn) (outdir : String) (prior : PriorDict) (data_mode : String) :
    ((photon_index < 0 →
        (_fit_grb name photon_index model outdir prior true data_mode).2 "alpha_1"
          = some (Prior.uniform (-10) (-0.5)))
  ∧ (¬ photon_index < 0 →
        (_fit_grb name photon_index model outdir prior true data_mode).2 "alpha_1"
          = some (Prior.gaussian (-(photon_index + 1)) 0.1)))
  ∧ (_fit_grb name (1.5 : ℚ) model outdir prior true data_mode).2 "alpha_1"
      = some (Prior.gaussian (-2.5) 0.1)
  ∧ ∀ k, k ≠ "alpha_1" →
      (_fit_grb name photon_index model outdir prior true data_mode).2 k = prior k := by
  refine ⟨⟨fun h => ?_, fun h => ?_⟩, ?_, fun k hk => ?_⟩
  · simp [_fit_grb, grbPhotonIndexPriorUpdate, PriorDict.insert, h]
  · simp [_fit_grb, grbPhotonIndexPriorUpdate, PriorDict.insert, h]
  · norm_num [_fit_grb, grbPhotonIndexPriorUpdate, PriorDict.insert]
  · by_cases h : photon_index < 0 <;>
      simp [_fit_grb, grbPhotonIndexPriorUpdate, PriorDict.insert, h, hk]

/-- Witness for C3 at photon index `-1` (negative branch). -/
theorem claim_C3_photon_index_prior_witness :
    ((-1 : ℚ) < 0)
  ∧ (_fit_grb "140903A" (-1) ⟨"tophat", "<function tophat at 0x7f2a1c5b80d0>"⟩
        "." (fun _ => none) true "flux").2 "alpha_1"
      = some (Prior.uniform (-10) (-0.5)) :=
  ⟨by norm_num,
    (claim_C3_photon_index_prior "140903A" (-1)
      ⟨"tophat", "<function tophat at 0x7f2a1c5b80d0>"⟩ "." (fun _ => none) "flux").1.1
      (by norm_num)⟩

/-- C4 counterexample: on the code as written the claim fails in the
default `prior=None` case — `fit_model` replaces `model` by the looked-up
function object and then interpolates THAT object into the prior-file path,
so `PriorDict(filename=...)` raises `FileNotFoundError` before the
`isinstance` dispatch; the unsupported-transient error never fires there. -/
theorem claim_C4_counterexample :
    (fit_model (fun _ => none) (fun _ => none) "redback" "140903A"
        (TransientClass.other "MyTransient") 0
        (ModelArg.byFn ⟨"tophat", "<function tophat at 0x7f2a1c5b80d0>"⟩)
        "." none false "flux").2
      = .error (.fileNotFoundError
          ("redback" ++ "/Priors/" ++ "<function tophat at 0x7f2a1c5b80d0>" ++ ".prior"))
  ∧ (fit_model (fun _ => none) (fun _ => none) "redback" "140903A"
        (TransientClass.other "MyTransient") 0
        (ModelArg.byFn ⟨"tophat", "<function tophat at 0x7f2a1c5b80d0>"⟩)
        "." none false "flux").2
      ≠ .error (.unsupportedTransientType
          ("Source type " ++ "MyTransient" ++ " not known")) :=
  ⟨rfl, by simp [fit_model, resolveModel]⟩

/-- C4 (amended): for a transient outside the five recognized kinds and a
resolvable model argument, `fit_model` fails before creating any output
directory or other filesystem resource — its effect trace never mutates the
filesystem.  The error is the unsupported-transient one exactly when the
prior load does not intervene: when a prior dictionary is passed
explicitly, or when `prior=None` and the (function-repr-interpolated) prior
file happens to exist; with `prior=None` and that file absent — the
situation in practice, since the path embeds the function object repr — the
failure is instead the earlier `FileNotFoundError` from the prior load,
still with the filesystem untouched. -/
theorem claim_C4_amended_dispatch (all_models_dict : String → Option ModelFn)
    (priorFiles : String → Option PriorDict) (dirname name className : String)
    (photon_index : ℚ) (model : ModelArg) (outdir : String)
    (prior : Option PriorDict) (upip : Bool) (data_mode : String) (f : ModelFn)
    (hmodel : resolveModel all_models_dict model = .ok f) :
    (∀ p, prior = some p →
      (fit_model all_models_dict priorFiles dirname name (TransientClass.other className)
          photon_index model outdir prior upip data_mode).2
        = .error (.unsupportedTransientType ("Source type " ++ className ++ " not known")))
  ∧ (prior = none →
      priorFiles (dirname ++ "/Priors/" ++ f.objectRepr ++ ".prior") = none →
      (fit_model all_models_dict priorFiles dirname name (TransientClass.other className)
          photon_index model outdir prior upip data_mode).2
        = .error (.fileNotFoundError (dirname ++ "/Priors/" ++ f.objectRepr ++ ".prior")))
  ∧ (∀ q, prior = none →
      priorFiles (dirname ++ "/Priors/" ++ f.objectRepr ++ ".prior") = some q →
      (fit_model all_models_dict priorFiles dirname name (TransientClass.other className)
          photon_index model outdir prior upip data_mode).2
        = .error (.unsupportedTransientType ("Source type " ++ className ++ " not known")))
  ∧ ∀ e ∈ (fit_model all_models_dict priorFiles dirname name (TransientClass.other className)
        photon_index model outdir prior upip data_mode).1,
      e.modifiesFilesystem = false := by
  refine ⟨fun p hp => ?_, fun h1 h2 => ?_, fun q h1 h2 => ?_, fun e he => ?_⟩
  · subst hp; simp [fit_model, hmodel, fit_model_dispatch]
  · subst h1; simp [fit_model, hmodel, h2]
  · subst h1; simp [fit_model, hmodel, h2, fit_model_dispatch]
  · simp only [fit_model, hmodel] at he
    cases prior with
    | some p => simp [fit_model_dispatch] at he
    | none =>
      rcases hpf : priorFiles (dirname ++ "/Priors/" ++ f.objectRepr ++ ".prior")
          with _ | q <;>
        simp [hpf, fit_model_dispatch] at he <;> subst he <;> rfl

/-- Witness for the amended C4: explicitly passed prior dictionary,
unrecognized transient class. -/
theorem claim_C4_amended_dispatch_witness :
    (fit_model (fun _ => none) (fun _ => none) "redback" "140903A"
        (TransientClass.other "MyTransient") 0
        (ModelArg.byFn ⟨"tophat", "<function tophat at 0x7f2a1c5b80d0>"⟩)
        "." (some (fun _ => none)) false "flux").2
      = .error (.unsupportedTransientType
          ("Source type " ++ "MyTransient" ++ " not known")) :=
  (claim_C4_amended_dispatch (fun _ => none) (fun _ => none) "redback" "140903A"
      "MyTransient" 0 (ModelArg.byFn ⟨"tophat", "<function tophat at 0x7f2a1c5b80d0>"⟩)
      "." (some (fun _ => none)) false "flux"
      ⟨"tophat", "<function tophat at 0x7f2a1c5b80d0>"⟩ rfl).1 (fun _ => none) rfl

/-- C7: the `OneComponentBNSProjection` ejecta mass (clamped with
`max(fit, 0)` before the `1/1000` scaling) and the `OneComponentNSBH` ejecta
mass (fit floored at zero, multiplied by the positive baryonic mass) are
non-negative at all physically valid inputs. -/
theorem claim_C7_ejecta_mass_nonneg (m1 m2 l1 l2 mbh mns chi lns : ℝ)
    (hm1 : 0 < m1) (hm2 : 0 < m2) (hl1 : 0 < l1) (hl2 : 0 < l2)
    (hmbh : 0 < mbh) (hmns : 0 < mns) (hlns : 0 < lns) :
    0 ≤ OneComponentBNSProjection.calculate_ejecta_mass m1 m2 l1 l2
  ∧ 0 ≤ OneComponentNSBH.calculate_ejecta_mass mbh mns chi lns := by
  constructor
  · simp only [OneComponentBNSProjection.calculate_ejecta_mass]
    exact div_nonneg (le_max_right _ _) (by norm_num)
  · simp only [OneComponentNSBH.calculate_ejecta_mass]
    have hc := calc_compactness_from_lambda_pos lns
    have hb : 0 < calc_baryonic_mass mns (calc_compactness_from_lambda lns) := by
      unfold calc_baryonic_mass
      have hr := Real.rpow_pos_of_pos hc (1.2082383572002926 : ℝ)
      nlinarith
    exact mul_nonneg hb.le (le_max_right _ _)

/-- Witness for C7 at `(1.4, 1.3, 400, 450)` and `(5, 1.4, 0, 400)`. -/
theorem claim_C7_ejecta_mass_nonneg_witness :
    ((0:ℝ) < 1.4)
  ∧ (0 ≤ OneComponentBNSProjection.calculate_ejecta_mass 1.4 1.3 400 450
  ∧ 0 ≤ OneComponentNSBH.calculate_ejecta_mass 5 1.4 0 400) :=
  ⟨by norm_num,
    claim_C7_ejecta_mass_nonneg 1.4 1.3 400 450 5 1.4 0 400 (by norm_num) (by norm_num)
      (by norm_num) (by norm_num) (by norm_num) (by norm_num) (by norm_num)⟩

/-- C8: the shared helper transforms of the source equal the closed forms of
the specification exactly, including every numeric constant. -/
theorem claim_C8_helpers_match_spec (m1 m2 lam1 lam2 mass compactness : ℝ) :
    calc_compactness_from_lambda lam1 = spec_compactness_from_tidal_deformability lam1
  ∧ calc_baryonic_mass mass compactness = spec_baryonic_mass mass compactness
  ∧ calc_vrho m1 m2 lam1 lam2 = spec_v_inplane m1 m2 lam1 lam2
  ∧ calc_vz m1 m2 lam1 lam2 = spec_v_outplane m1 m2 lam1 lam2 := by
  refine ⟨rfl, rfl, ?_, ?_⟩ <;>
  · simp only [calc_vrho, spec_v_inplane, calc_vz, spec_v_outplane,
      calc_compactness_from_lambda, spec_compactness_from_tidal_deformability]
    ring

/-- C9: the innermost-stable-circular-orbit radius of `OneComponentNSBH`
equals exactly `6` at zero effective spin (the Schwarzschild limit of the
Bardeen–Press–Teukolsky formula). -/
theorem claim_C9_isco_schwarzschild : OneComponentNSBH.isco_radius 0 = 6 := by
  have hsign : npSign 0 = 0 := by simp [npSign]
  simp only [OneComponentNSBH.isco_radius, hsign]
  norm_num [Real.one_rpow]
  rw [show (9:ℝ) = (3:ℝ) ^ (2:ℕ) by norm_num, ← Real.rpow_natCast (3:ℝ) 2,
    ← Real.rpow_mul (by norm_num : (0:ℝ) ≤ 3)]
  norm_num

/-- C10: at identical inputs the two BNS variants share the same `vrho`,
`vz` and polar opening angle `qej`, and in both variants the azimuthal
opening angle is `2π` times the polar one; the projection choice therefore
changes only ejecta mass and velocity, not the geometry outputs. -/
theorem claim_C10_geometry_agreement (m1 m2 l1 l2 : ℝ) :
    OneComponentBNSNoProjection.vrho m1 m2 l1 l2
      = OneComponentBNSProjection.vrho m1 m2 l1 l2
  ∧ OneComponentBNSNoProjection.vz m1 m2 l1 l2
      = OneComponentBNSProjection.vz m1 m2 l1 l2
  ∧ OneComponentBNSNoProjection.calculate_qej m1 m2 l1 l2
      = OneComponentBNSProjection.calculate_qej m1 m2 l1 l2
  ∧ OneComponentBNSNoProjection.calculate_phej m1 m2 l1 l2
      = 2 * Real.pi * OneComponentBNSNoProjection.calculate_qej m1 m2 l1 l2
  ∧ OneComponentBNSProjection.calculate_phej m1 m2 l1 l2
      = 2 * Real.pi * OneComponentBNSProjection.calculate_qej m1 m2 l1 l2 := by
  refine ⟨rfl, rfl, rfl, ?_, ?_⟩ <;>
  · simp only [OneComponentBNSNoProjection.calculate_phej,
      OneComponentBNSProjection.calculate_phej]
    ring

/-- No effect emitted by `read_result` invokes the sampling machinery. -/
theorem read_result_triggers_no_fit (env : AnalysisEnv) (model GRB path : String)
    (upip : Bool) :
    ∀ e ∈ (read_result env model GRB path upip).1, e.triggersFit = false := by
  simp only [read_result]
  rcases henv : env.resultFiles (result_filename model GRB path upip) with _ | r <;>
    rcases hd : env.dirExists (result_path model GRB path) <;>
      simp [henv, hd, Effect.triggersFit]

/-- C5: when both persisted results exist, `calculate_BF` returns
`log_evidence(result_1) - log_evidence(result_2)`, and comparing a model
against itself returns exactly `0`. -/
theorem claim_C5_log_bayes_factor (env : AnalysisEnv) (model1 model2 GRB path : String)
    (upip : Bool) (r1 r2 : BilbyResult)
    (h1 : env.resultFiles (result_filename model1 GRB path upip) = some r1)
    (h2 : env.resultFiles (result_filename model2 GRB path upip) = some r2) :
    (calculate_BF env model1 model2 GRB path upip).2
      = .ok (r1.log_evidence - r2.log_evidence)
  ∧ (calculate_BF env model1 model1 GRB path upip).2 = .ok 0 := by
  constructor
  · simp [calculate_BF, read_result, h1, h2]
  · simp [calculate_BF, read_result, h1]

/-- Witness for C5 on the concrete store `sampleAnalysisEnv`. -/
theorem claim_C5_log_bayes_factor_witness :
    (calculate_BF sampleAnalysisEnv "magnetar_only" "full_magnetar" "140903A" "." false).2
      = .ok ((3:ℚ) - 1)
  ∧ (calculate_BF sampleAnalysisEnv "magnetar_only" "magnetar_only" "140903A" "." false).2
      = .ok 0 :=
  claim_C5_log_bayes_factor sampleAnalysisEnv "magnetar_only" "full_magnetar" "140903A"
    "." false ⟨3⟩ ⟨1⟩ (by decide) (by decide)

/-- C6: if either requested result is absent from the store,
`calculate_BF` fails with the result-not-found error naming the missing
file, and no effect of the comparison path triggers a fit. -/
theorem claim_C6_missing_result (env : AnalysisEnv) (model1 model2 GRB path : String)
    (upip : Bool) :
    (env.resultFiles (result_filename model1 GRB path upip) = none →
      (calculate_BF env model1 model2 GRB path upip).2
        = .error (.resultNotFound (result_filename model1 GRB path upip)))
  ∧ (∀ r1, env.resultFiles (result_filename model1 GRB path upip) = some r1 →
      env.resultFiles (result_filename model2 GRB path upip) = none →
      (calculate_BF env model1 model2 GRB path upip).2
        = .error (.resultNotFound (result_filename model2 GRB path upip)))
  ∧ ∀ e ∈ (calculate_BF env model1 model2 GRB path upip).1, e.triggersFit = false := by
  refine ⟨fun h1 => ?_, fun r1 h1 h2 => ?_, fun e he => ?_⟩
  · simp [calculate_BF, read_result, h1]
  · simp [calculate_BF, read_result, h1, h2]
  · simp only [calculate_BF] at he
    rcases hr1 : (read_result env model1 GRB path upip).2 with e1 | m1 <;>
      simp only [hr1] at he
    · exact read_result_triggers_no_fit env model1 GRB path upip e he
    · rcases hr2 : (read_result env model2 GRB path upip).2 with e2 | m2 <;>
        simp only [hr2] at he <;>
        rcases List.mem_append.1 he with h | h
      · exact read_result_triggers_no_fit env model1 GRB path upip e h
      · exact read_result_triggers_no_fit env model2 GRB path upip e h
      · exact read_result_triggers_no_fit env model1 GRB path upip e h
      · exact read_result_triggers_no_fit env model2 GRB path upip e h

/-- Witness for C6: the store holds no result for `"radiative_losses"`. -/
theorem claim_C6_missing_result_witness :
    (sampleAnalysisEnv.resultFiles
        (result_filename "radiative_losses" "140903A" "." false) = none)
  ∧ (calculate_BF sampleAnalysisEnv "radiative_losses" "magnetar_only" "140903A" "." false).2
      = .error (.resultNotFound (result_filename "radiative_losses" "140903A" "." false)) :=
  ⟨by decide,
    (claim_C6_missing_result sampleAnalysisEnv "radiative_losses" "magnetar_only"
      "140903A" "." false).1 (by decide)⟩

/-- Upper bound on `exp 5` from the ten-digit bound on `exp 1`. -/
theorem exp_five_ub : Real.exp 5 ≤ 2.7182818286 ^ (5 : ℕ) := by
  have h : Real.exp 5 = Real.exp 1 ^ (5 : ℕ) := by
    rw [← Real.exp_nat_mul]; norm_num
  rw [h]
  exact pow_le_pow_left (Real.exp_pos 1).le Real.exp_one_lt_d9.le 5

/-- Lower bound on `exp 5` from the ten-digit bound on `exp 1`. -/
theorem exp_five_lb : (2.7182818283 : ℝ) ^ (5 : ℕ) ≤ Real.exp 5 := by
  have h : Real.exp 5 = Real.exp 1 ^ (5 : ℕ) := by
    rw [← Real.exp_nat_mul]; norm_num
  rw [h]
  exact pow_le_pow_left (by norm_num) Real.exp_one_gt_d9.le 5

/-- Taylor upper bound `exp 0.7 ≤ 2.0137621`. -/
theorem exp_pt7_ub : Real.exp 0.7 ≤ 2.0137621 := by
  have h := Real.exp_bound' (x := 0.7) (by norm_num) (by norm_num) (n := 6) (by norm_num)
  refine h.trans ?_
  simp only [Finset.sum_range_succ, Finset.sum_range_zero]
  norm_num [Nat.factorial]

/-- Taylor lower bound `2.0322893 ≤ exp 0.71`. -/
theorem exp_pt71_lb : (2.0322893 : ℝ) ≤ Real.exp 0.71 := by
  have h := Real.sum_le_exp_of_nonneg (x := 0.71) (by norm_num) 5
  refine le_trans ?_ h
  simp only [Finset.sum_range_succ, Finset.sum_range_zero]
  norm_num [Nat.factorial]

/-- `exp 5.7 < 300`. -/
theorem exp_57_lt_300 : Real.exp 5.7 < 300 := by
  have hsplit : Real.exp 5.7 = Real.exp 5 * Real.exp 0.7 := by
    rw [← Real.exp_add]; norm_num
  rw [hsplit]
  have h := mul_le_mul exp_five_ub exp_pt7_ub (Real.exp_pos 0.7).le (by positivity)
  refine lt_of_le_of_lt h ?_
  norm_num

/-- `300 < exp 5.71`. -/
theorem exp_571_gt_300 : (300 : ℝ) < Real.exp 5.71 := by
  have hsplit : Real.exp 5.71 = Real.exp 5 * Real.exp 0.71 := by
    rw [← Real.exp_add]; norm_num
  rw [hsplit]
  have h := mul_le_mul exp_five_lb exp_pt71_lb (by norm_num) (Real.exp_pos 5).le
  refine lt_of_lt_of_le ?_ h
  norm_num

/-- Bracketing of the natural logarithm of `300`. -/
theorem log_300_bounds : 5.7 < Real.log 300 ∧ Real.log 300 < 5.71 :=
  ⟨(Real.lt_log_iff_exp_lt (by norm_num)).2 exp_57_lt_300,
    (Real.log_lt_iff_lt_exp (by norm_num)).2 exp_571_gt_300⟩

/-- Bracketing of the compactness fit at `λ = 300`. -/
theorem compactness_300_bounds :
    0.1818 < calc_compactness_from_lambda 300
  ∧ calc_compactness_from_lambda 300 < 0.1828 := by
  obtain ⟨hl, hu⟩ := log_300_bounds
  unfold calc_compactness_from_lambda
  constructor
  · nlinarith [sq_nonneg (Real.log 300 - 5.7)]
  · nlinarith [mul_pos (by linarith : (0:ℝ) < Real.log 300 - 5.7)
      (by linarith : (0:ℝ) < 5.71 - Real.log 300)]

/-- C2 counterexample: `calc_compactness_from_lambda(300)` is NOT close to
the reference value `0.1473` claimed by the specification — it differs from
it by more than `0.03`, far beyond the numeric precision of the fit. -/
theorem claim_C2_counterexample : 0.03 < |calc_compactness_from_lambda 300 - 0.1473| := by
  obtain ⟨hl, _⟩ := compactness_300_bounds
  rw [abs_of_pos (by linarith)]
  linarith

/-- C2 (amended): `calc_compactness_from_lambda(300)` evaluates to
approximately `0.1823` (within `0.0005`) by direct formula evaluation,
`0.371 − 0.0391·ln 300 + 0.001056·(ln 300)² ≈ 0.18234`. -/
theorem claim_C2_amended_value : |calc_compactness_from_lambda 300 - 0.1823| < 0.0005 := by
  obtain ⟨hl, hu⟩ := compactness_300_bounds
  rw [abs_sub_lt_iff]
  constructor <;> linarith
